import Mathlib

/-!
Verification of the MRIQC quality-metric engine (`mriqc/qc/anatomical.py`)
and its upload collaborator (`mriqc/interfaces/webapi.py`) against the
repository's specification.

Modelling conventions.  Voxel volumes are embedded as lists of exact
rationals: a flat `List ℚ` where the array geometry is irrelevant (NumPy
boolean selection flattens in C order), and a nested
`List (List (List ℚ))` where 3-D morphology (erosion / opening) acts.
Integer-valued arrays (segmentations) are `List ℤ`.  NumPy floating-point
arithmetic is idealised as exact rational (or real, where a square root or
π occurs) arithmetic; the float-valued MAD consistency constant and the
0.95 / 1e-3 thresholds are carried as exact rational literals.  Fallible
code returns `Except String`; the sole file write (in `art_qi2`) threads an
explicit file-system state, a list of the paths that exist.
-/

namespace MRIQC

/-! ## Robust statistics primitives -/

/-- Insertion step for `sortQ`. -/
def insertSorted (x : ℚ) : List ℚ → List ℚ
  | [] => [x]
  | y :: ys => if x ≤ y then x :: y :: ys else y :: insertSorted x ys

/-- Sorting of a rational list (models `np.sort`; insertion sort is used so
that concrete instances reduce, the result being the same sorted list). -/
def sortQ (xs : List ℚ) : List ℚ := xs.foldr insertSorted []

/-- Median of a list, as `np.median` computes it: sort, take the middle
element (odd length) or the mean of the two middle elements (even length).
The empty list is mapped to 0 (NumPy would produce NaN there; every claim
below evaluates medians of non-empty selections only). -/
def median (xs : List ℚ) : ℚ :=
  let s := sortQ xs
  let n := s.length
  if n = 0 then 0
  else if n % 2 = 1 then s.getD (n / 2) 0
  else (s.getD (n / 2 - 1) 0 + s.getD (n / 2) 0) / 2

/-- The consistency constant of `statsmodels.robust.scale.mad`: the double
value of `scipy.stats.norm.ppf(3/4)`, carried as the exact rational of its
decimal rendering. -/
def madC : ℚ := 0.6744897501960817

/-- Median absolute deviation as `statsmodels.robust.scale.mad` computes it
with its defaults: each absolute deviation from the median is divided by
the consistency constant `madC`, then the median of those is taken. -/
def mad (xs : List ℚ) : ℚ := median (xs.map (fun x => |x - median xs| / madC))

/-- Arithmetic mean (`np.mean`); 0 on the empty list (NumPy: NaN). -/
def meanQ (xs : List ℚ) : ℚ := xs.sum / xs.length

/-- Boolean-mask selection `img[p mask]`: the voxels of `img` at the
positions where the companion array satisfies `p`, in C order.  This is
NumPy advanced (boolean) indexing, which copies. -/
def selectP {α : Type} (img : List ℚ) (mask : List α) (p : α → Bool) : List ℚ :=
  ((img.zip mask).filter (fun q => p q.2)).map Prod.fst

/-- Selection `img[seg == label]` for an integer segmentation. -/
def selSeg (img : List ℚ) (seg : List ℤ) (label : ℤ) : List ℚ :=
  selectP img seg (fun v => v = label)

/-! ## 3-D volumes and morphology

Where the code applies 3-D morphology (`scipy.ndimage`), arrays are kept
nested: a volume is a list of planes, a plane a list of rows, a row a list
of rationals.  `flatten3` recovers the C-order flat view used by boolean
indexing. -/

/-- A 3-D array of rationals.  The embedding assumes rectangular data; the
spec's shape invariant (§3) makes all companion arrays share one grid. -/
abbrev Vol3 := List (List (List ℚ))

/-- C-order flattening of a 3-D array, `arr.reshape(-1)`. -/
def flatten3 (m : Vol3) : List ℚ := (m.map List.flatten).flatten

/-- Element-wise transform of a 3-D array. -/
def map3 (f : ℚ → ℚ) (m : Vol3) : Vol3 :=
  m.map (fun plane => plane.map (fun row => row.map f))

/-- Index-aware map, structurally recursive so that shape lemmas and kernel
reduction are direct. -/
def imap {α β : Type} (f : ℕ → α → β) : ℕ → List α → List β
  | _, [] => []
  | i, a :: as => f i a :: imap f (i + 1) as

/-- Bounds-checked read of a 3-D array; positions outside the array read 0,
matching `border_value=0` of the scipy morphology calls. -/
def getQ (m : Vol3) (x y z : ℤ) : ℚ :=
  if 0 ≤ x ∧ 0 ≤ y ∧ 0 ≤ z then
    ((m.getD x.toNat []).getD y.toNat []).getD z.toNat 0
  else 0

/-- The structuring element `nd.generate_binary_structure(3, 2)`:
the 19 offsets in {-1,0,1}³ whose absolute coordinates sum to at most 2
(faces and edges, no corners). -/
def struct18 : List (ℤ × ℤ × ℤ) :=
  (([-1, 0, 1].flatMap fun a =>
    [-1, 0, 1].flatMap fun b =>
      [-1, 0, 1].map fun c => ((a : ℤ), (b : ℤ), (c : ℤ)))).filter
    (fun s => |s.1| + |s.2.1| + |s.2.2| ≤ 2)

/-- Binary erosion `nd.binary_erosion(m, structure=struct18)` with the
default `border_value=0`: a voxel survives iff every voxel under the
structuring element is truthy (non-zero), out-of-bounds reads being 0.
The result is the `astype(np.uint8)` 0/1 image. -/
def erode3 (m : Vol3) : Vol3 :=
  imap (fun x plane =>
    imap (fun y row =>
      imap (fun z _ =>
        if struct18.all
            (fun s => getQ m ((x:ℤ) + s.1) ((y:ℤ) + s.2.1) ((z:ℤ) + s.2.2) ≠ 0)
        then (1:ℚ) else 0) 0 row) 0 plane) 0 m

/-- Binary dilation with the same (symmetric) structuring element and
`border_value=0`: a voxel is set iff some voxel under the element is
truthy. -/
def dilate3 (m : Vol3) : Vol3 :=
  imap (fun x plane =>
    imap (fun y row =>
      imap (fun z _ =>
        if struct18.any
            (fun s => getQ m ((x:ℤ) + s.1) ((y:ℤ) + s.2.1) ((z:ℤ) + s.2.2) ≠ 0)
        then (1:ℚ) else 0) 0 row) 0 plane) 0 m

/-- Binary opening `nd.binary_opening`: erosion followed by dilation. -/
def opening3 (m : Vol3) : Vol3 := dilate3 (erode3 m)

/-- The 2-D shape profile of a 3-D array (row lengths per plane). -/
def shape3 (m : Vol3) : List (List ℕ) := m.map (fun plane => plane.map List.length)

/-! ## Mask preparation (`_prepare_mask`) -/

/-- First in-place write of the integer branch: `fgmask[fgmask != label] = 0`. -/
def labelStep1 (label : ℤ) (v : ℚ) : ℚ := if v ≠ (label : ℚ) then 0 else v

/-- Second in-place write of the integer branch: `fgmask[fgmask == label] = 1`. -/
def labelStep2 (label : ℤ) (v : ℚ) : ℚ := if v = (label : ℚ) then 1 else v

/-- First in-place write of the continuous branch: `fgmask[fgmask > .95] = 1.`. -/
def clampStep1 (v : ℚ) : ℚ := if 0.95 < v then 1 else v

/-- Second in-place write of the continuous branch: `fgmask[fgmask < 1.] = 0`. -/
def clampStep2 (v : ℚ) : ℚ := if v < 1 then 0 else v

/-- Embedding of `_prepare_mask(mask, label, erode)`.  The dtype dispatch
`np.issubdtype(mask.dtype, np.integer)` is array metadata, carried as the
explicit flag `isInt` (symbolic labels are taken already resolved through
the label table).  Each in-place masked write of the source is one
element-wise pass; `erode=True` applies the binary opening with the
18-connectivity structuring element. -/
def prepare_mask (mask : Vol3) (isInt : Bool) (label : ℤ) (erode : Bool) : Vol3 :=
  let fgmask :=
    if isInt then map3 (labelStep2 label) (map3 (labelStep1 label) mask)
    else map3 clampStep2 (map3 clampStep1 mask)
  if erode then opening3 fgmask else fgmask

/-! ## FSL FAST label table (`FSL_FAST_LABELS`) -/

def lbl_csf : ℤ := 1
def lbl_gm : ℤ := 2
def lbl_wm : ℤ := 3
def lbl_bg : ℤ := 0

/-! ## volume_fraction -/

/-- Per-tissue intracranial-volume fractions. -/
structure TissueFractions where
  csf : ℚ
  gm : ℚ
  wm : ℚ

/-- Embedding of `volume_fraction(pvms)`: iterating the label table in its
insertion order (csf, gm, wm, bg) and skipping `lid == 0`, each tissue's
entry is `pvms[lid - 1].sum()`, the total accumulates those three sums,
and each entry is then divided by the total. -/
def volume_fraction (pvms : List (List ℚ)) : TissueFractions :=
  let s_csf := (pvms.getD 0 []).sum
  let s_gm := (pvms.getD 1 []).sum
  let s_wm := (pvms.getD 2 []).sum
  let total := s_csf + s_gm + s_wm
  ⟨s_csf / total, s_gm / total, s_wm / total⟩

/-! ## cnr -/

/-- Embedding of `cnr(img, seg)` with the default label table.  The noise
scale is `mad(img[seg == bg])`; when that is below 1.0 the code falls back
to `np.average(mad(gm) + mad(wm) + mad(csf))` — the argument of
`np.average` is already a scalar (the sum of the three MADs), and
`np.average` of a scalar is that scalar, so the fallback noise scale is
the SUM of the three tissue MADs.  The returned value is
`|median(gm) - median(wm)| / noise`. -/
def cnr (img : List ℚ) (seg : List ℤ) : ℚ :=
  let noise0 := mad (selSeg img seg lbl_bg)
  let noise :=
    if noise0 < 1 then
      mad (selSeg img seg lbl_gm) + mad (selSeg img seg lbl_wm) +
        mad (selSeg img seg lbl_csf)
    else noise0
  |median (selSeg img seg lbl_gm) - median (selSeg img seg lbl_wm)| / noise

/-! ## cjv -/

/-- Binary mask built from a segmentation: `np.zeros_like(seg)` followed by
`mask[seg == label] = 1`. -/
def maskFromSeg (seg : List ℤ) (label : ℤ) : List ℚ :=
  seg.map (fun v => if v = label then 1 else 0)

/-- Common tail of `cjv` (source lines 166–170): medians and MADs over
`img[mask > .5]` for the two tissue masks, combined as
`(sigma_wm + sigma_gm) / (mu_wm - mu_gm)`. -/
def cjvValue (img wm gm : List ℚ) : ℚ :=
  let mu_wm := median (selectP img wm (fun v => (1:ℚ)/2 < v))
  let mu_gm := median (selectP img gm (fun v => (1:ℚ)/2 < v))
  let sigma_wm := mad (selectP img wm (fun v => (1:ℚ)/2 < v))
  let sigma_gm := mad (selectP img gm (fun v => (1:ℚ)/2 < v))
  (sigma_wm + sigma_gm) / (mu_wm - mu_gm)

/-- Embedding of `cjv(img, seg, wmmask, gmmask, wmlabel, gmlabel)`.  The
symbolic label arguments are taken already resolved through the label
table (`'wm' ↦ 3`, `'gm' ↦ 2`).  A `RuntimeError` is raised exactly when
`seg is None and (wmmask is None or gmmask is None)`; when a segmentation
is present the two masks are rebuilt from it, otherwise the provided masks
are used. -/
def cjv (img : List ℚ) (seg : Option (List ℤ)) (wmmask gmmask : Option (List ℚ))
    (wmlabel gmlabel : ℤ) : Except String ℚ :=
  if seg = none ∧ (wmmask = none ∨ gmmask = none) then
    .error "Masks or segmentation should be provided"
  else
    match seg with
    | some s => .ok (cjvValue img (maskFromSeg s wmlabel) (maskFromSeg s gmlabel))
    | none => .ok (cjvValue img (wmmask.getD []) (gmmask.getD []))

/-! ## snr -/

/-- Embedding of `snr(img, smask, erode, fglabel)`.  Following the source
line by line: the prepared foreground mask, the foreground median, then
`bgmask = fgmask` and `bg_mean = fg_mean`, and the manual sigma
`sqrt(sum((img[bgmask > 0] - bg_mean)**2) / (sum(bgmask) - 1))`; the
result is `fg_mean / bg_std`.  The value is real because of the square
root; everything under it is exact rational. -/
noncomputable def snr (img smask : Vol3) (isInt : Bool) (erode : Bool)
    (fglabel : ℤ) : ℝ :=
  let fgmask := prepare_mask smask isInt fglabel erode
  let fg_mean := median (selectP (flatten3 img) (flatten3 fgmask) (fun v => 0 < v))
  let bgmask := fgmask
  let bg_mean := fg_mean
  let bg_std : ℝ :=
    Real.sqrt ((((((selectP (flatten3 img) (flatten3 bgmask) (fun v => 0 < v)).map
      (fun x => (x - bg_mean)^2)).sum) / ((flatten3 bgmask).sum - 1) : ℚ) : ℝ))
  (fg_mean : ℝ) / bg_std

/-- Claim-side definition for C1: the Bessel-corrected standard deviation
of a sample — squared deviations about the MEAN, normalized by n−1. -/
noncomputable def besselStd (xs : List ℚ) : ℝ :=
  Real.sqrt ((((xs.map (fun x => (x - meanQ xs)^2)).sum / ((xs.length : ℚ) - 1) : ℚ) : ℝ))

/-- The spread estimate `snr` actually computes: squared deviations about
the MEDIAN, normalized by n−1. -/
noncomputable def besselMedianSpread (xs : List ℚ) : ℝ :=
  Real.sqrt ((((xs.map (fun x => (x - median xs)^2)).sum / ((xs.length : ℚ) - 1) : ℚ) : ℝ))

/-! ## snr_dietrich -/

/-- Embedding of `snr_dietrich(img, smask, airmask, erode, fglabel)`: the
foreground median over the prepared tissue mask, the air MAD over the
prepared air mask (label 1), the Rayleigh correction factor
`sqrt(2/(4 - pi))`, the sentinel −1.0 when the corrected scale is below
1e-3, and otherwise the quotient. -/
noncomputable def snr_dietrich (img smask airmask : Vol3) (smaskInt airmaskInt : Bool)
    (erode : Bool) (fglabel : ℤ) : ℝ :=
  let fgmask := prepare_mask smask smaskInt fglabel erode
  let bgmask := prepare_mask airmask airmaskInt 1 erode
  let fg_mean := median (selectP (flatten3 img) (flatten3 fgmask) (fun v => 0 < v))
  let bg_std : ℝ :=
    (mad (selectP (flatten3 img) (flatten3 bgmask) (fun v => 0 < v)) : ℝ) *
      Real.sqrt (2 / (4 - Real.pi))
  if bg_std < 1e-3 then -1
  else (fg_mean : ℝ) / bg_std

/-! ## art_qi2 -/

/-- Ensure a path exists: `open(out_file, 'a').close()` (append mode
creates the file when missing and leaves it untouched otherwise).  The
file system is the list of existing paths. -/
def touch (fs : List String) (p : String) : List String :=
  if p ∈ fs then fs else p :: fs

/-- Embedding of `art_qi2(img, airmask, ncoils, erodemask, out_file,
min_voxels)`.  The diagnostic path is first touched; the air mask is
optionally eroded (`nd.binary_erosion`, same structuring element); the
air data is `img[airmask > 0]`; if fewer than `min_voxels` of those are
strictly positive the function short-circuits to `(0.0, out_file)`.  The
histogram / non-central-chi fitting stage (`np.histogram`, `scipy.stats
.chi.fit`, a floating-point optimizer) is abstracted as the oracle `fit`
from the positive air sample to the raw goodness-of-fit value; the claims
settled here never depend on it.  After the fit the code clamps the value
to [0,1] and rewrites the diagnostic file. -/
def art_qi2 (img airmask : Vol3) (erodemask : Bool) (out_file : String)
    (min_voxels : ℚ) (fit : List ℚ → ℚ) (fs : List String) :
    (ℚ × String) × List String :=
  let fs1 := touch fs out_file
  let am := if erodemask then erode3 airmask else airmask
  let data := selectP (flatten3 img) (flatten3 am) (fun v => 0 < v)
  let pos := data.filter (fun v => 0 < v)
  if ((pos.length : ℚ)) < min_voxels then ((0, out_file), fs1)
  else
    let gof0 := fit pos
    let gof1 := if 1 < gof0 then 1 else gof0
    let gof := if gof1 < 0 then 0 else gof1
    ((gof, out_file), touch fs1 out_file)

/-! ## Percentiles, kurtosis and per-tissue summaries -/

/-- `np.percentile` with its default linear interpolation: the value at
fractional position q/100 × (n−1) of the sorted data.  0 on empty input
(NumPy: NaN with a warning; no claim evaluates it there). -/
def percentile (xs : List ℚ) (q : ℚ) : ℚ :=
  let s := sortQ xs
  let n := s.length
  if n = 0 then 0
  else
    let pos := q * ((n : ℚ) - 1) / 100
    let i := (⌊pos⌋).toNat
    let frac := pos - ((⌊pos⌋ : ℤ) : ℚ)
    if i + 1 < n then s.getD i 0 + frac * (s.getD (i + 1) 0 - s.getD i 0)
    else s.getD (n - 1) 0

/-- `scipy.stats.kurtosis` with its defaults (Fisher definition, biased
moments): m4/m2² − 3 with the population moments. -/
def kurtosis (xs : List ℚ) : ℚ :=
  let m := meanQ xs
  let m2 := (xs.map (fun x => (x - m)^2)).sum / (xs.length : ℚ)
  let m4 := (xs.map (fun x => (x - m)^4)).sum / (xs.length : ℚ)
  m4 / m2^2 - 3

/-- Per-tissue summary record of `summary_stats`.  The code's `stdv` is
`np.std`, the square root of the population variance; the embedding
records the variance `stdvSq` (= stdv²) to stay in exact rational
arithmetic — an injective recoding, the std being nonnegative. -/
structure TissueStats where
  mean : ℚ
  stdvSq : ℚ
  p95 : ℚ
  p05 : ℚ
  kurt : ℚ

/-- One tissue's statistics: `mask = np.where(pvms[lid] > 0.5)` and the
mean / std / 95th / 5th percentile / kurtosis of `img[mask]`. -/
def tissueStats (img : List ℚ) (pvm : List ℚ) : TissueStats :=
  let sel := selectP img pvm (fun v => (1:ℚ)/2 < v)
  ⟨meanQ sel, (sel.map (fun x => (x - meanQ sel)^2)).sum / sel.length,
   percentile sel 95, percentile sel 5, kurtosis sel⟩

/-- The `pvms` argument of `summary_stats` as it reaches the rank test
`np.squeeze(np.array(pvms)).ndim`: either a list of same-shape 3-D arrays
(rank 4 when at least two are present) or a bare 3-D array (rank 3).  The
flattened per-array view suffices since no morphology is applied here;
each member array is assumed truly 3-D with no singleton axis. -/
inductive PVMInput where
  | stack (ls : List (List ℚ))
  | single (v : List ℚ)

/-- `np.array(pvms).sum(axis=0)`: the element-wise sum of the stacked
arrays. -/
def sumPVM (ls : List (List ℚ)) : List ℚ :=
  match ls with
  | [] => []
  | h :: t => t.foldl (fun acc v => List.zipWith (· + ·) acc v) h

/-- `np.ones_like(pvms) - pvms` for a bare 3-D array. -/
def complement1 (v : List ℚ) : List ℚ := v.map (fun x => 1 - x)

/-- Embedding of `summary_stats(img, pvms, bgdata)`.  A bare 3-D array
(rank 3) yields the two-class bg/fg output over `[1 − pvms, pvms]` (the
background channel replaced by `bgdata` when given).  A stacked list with
at least two members has rank 4: the element-wise SUM of the members is
inserted at position 0 (replaced by `bgdata` when given), and the
four-class labels are used only if the list then has exactly 4 entries —
i.e. only a 3-element input works; with a 4-element input the list grows
to 5, no branch assigns `labels`, and Python raises `UnboundLocalError`.
An empty list has rank 1 and hits the explicit `RuntimeError`; a
one-element list is squeezed to rank 3 but the list-typed `pvms` then
breaks the indexing (`IndexError`), as recorded here. -/
def summary_stats (img : List ℚ) (pvms : PVMInput) (bgdata : Option (List ℚ)) :
    Except String (List (String × TissueStats)) :=
  match pvms with
  | .single v =>
      let l0 := bgdata.getD (complement1 v)
      .ok [("bg", tissueStats img l0), ("fg", tissueStats img v)]
  | .stack ls =>
      if ls.length = 0 then
        .error "RuntimeError: Incorrect image dimensions (1)"
      else if ls.length = 1 then
        .error "IndexError: too many indices for array"
      else
        let withBg :=
          match bgdata with
          | some b => b :: ls
          | none => sumPVM ls :: ls
        if withBg.length = 4 then
          .ok [("csf", tissueStats img (withBg.getD 1 [])),
               ("gm", tissueStats img (withBg.getD 2 [])),
               ("wm", tissueStats img (withBg.getD 3 [])),
               ("bg", tissueStats img (withBg.getD 0 []))]
        else
          .error "UnboundLocalError: local variable labels referenced before assignment"

/-! ## rpve -/

/-- One tissue's residual partial-volume error: the copy
`pvmap = pvms[lid-1][seg == lid]` (NumPy boolean indexing returns a fresh
array), clipped (`pvmap[pvmap < 0] = 0`, `pvmap[pvmap >= 1] = 0`), then
the 2nd/98th percentiles of its positive part trim the tails, and the
positive remainder is summed. -/
def rpveTissue (pvm : List ℚ) (seg : List ℤ) (lid : ℤ) : ℚ :=
  let pvmap := selectP pvm seg (fun v => v = lid)
  let p1 := pvmap.map (fun v => if v < 0 then 0 else v)
  let p2 := p1.map (fun v => if 1 ≤ v then 0 else v)
  let upth := percentile (p2.filter (fun v => 0 < v)) 98
  let loth := percentile (p2.filter (fun v => 0 < v)) 2
  let p3 := p2.map (fun v => if v < loth then 0 else v)
  let p4 := p3.map (fun v => if upth < v then 0 else v)
  (p4.filter (fun v => 0 < v)).sum

/-- Per-tissue rPVe values, in the label-table order. -/
structure RpveResult where
  csf : ℚ
  gm : ℚ
  wm : ℚ

/-- Embedding of `rpve(pvms, seg)`: the trimmed sum per tissue label. -/
def rpve (pvms : List (List ℚ)) (seg : List ℤ) : RpveResult :=
  ⟨rpveTissue (pvms.getD 0 []) seg 1, rpveTissue (pvms.getD 1 []) seg 2,
   rpveTissue (pvms.getD 2 []) seg 3⟩

/-- One loop iteration of `rpve`, threading the store (the caller's PVM
list and segmentation).  `pvms[lid - 1][seg == lid]` is NumPy ADVANCED
(boolean) indexing, which returns a fresh copy — so every subsequent
masked write (`pvmap[…] = 0`) mutates that copy only and the store leaves
the iteration exactly as it entered it. -/
def rpveStep (store : List (List ℚ) × List ℤ) (lid : ℤ) :
    ℚ × (List (List ℚ) × List ℤ) :=
  (rpveTissue (store.1.getD (lid - 1).toNat []) store.2 lid, store)

/-- State-threaded rendering of `rpve`: the three tissue iterations in
label-table order, returning the per-tissue sums together with the final
store. -/
def rpveRun (pvms : List (List ℚ)) (seg : List ℤ) :
    RpveResult × (List (List ℚ) × List ℤ) :=
  let r1 := rpveStep (pvms, seg) 1
  let r2 := rpveStep r1.2 2
  let r3 := rpveStep r2.2 3
  (⟨r1.1, r2.1, r3.1⟩, r3.2)

/-! ## Upload collaborator (`mriqc/interfaces/webapi.py`) -/

/-- The metadata whitelist `META_WHITELIST` of `webapi.py`. -/
def META_WHITELIST : List String :=
  ["ContrastBolusIngredient", "RepetitionTime", "TaskName", "Manufacturer",
   "ManufacturersModelName", "MagneticFieldStrength", "DeviceSerialNumber",
   "SoftwareVersions", "HardcopyDeviceSoftwareVersion", "ReceiveCoilName",
   "GradientSetType", "MRTransmitCoilSequence", "MatrixCoilMode",
   "CoilCombinationMethod", "PulseSequenceType", "PulseSequenceDetails",
   "NumberShots", "ParallelReductionFactorInPlane", "ParallelAcquisitionTechnique",
   "PartialFourier", "PartialFourierDirection", "PhaseEncodingDirection",
   "EffectiveEchoSpacing", "TotalReadoutTime",
   "EchoTime", "InversionTime", "SliceTiming", "SliceEncodingDirection",
   "NumberOfVolumesDiscardedByScanner", "NumberOfVolumesDiscardedByUser",
   "DelayTime", "FlipAngle", "MultibandAccelerationFactor", "Instructions",
   "TaskDescription", "CogAtlasID", "CogPOID", "InstitutionName",
   "InstitutionAddress", "ConversionSoftware", "ConversionSoftwareVersion",
   "md5sum", "modality", "mriqc_pred", "software", "subject_id", "version"]

/-- An HTTP response as far as the interface inspects it. -/
structure HttpResponse where
  status_code : ℕ
  text : String

/-- The input metrics record (`in_iqms` after `json.load`): JSON values are
kept opaque as strings.  `payload` holds the items whose key is not
`'metadata'`; `metadata` is the `'metadata'` sub-object, which the code
reads unconditionally on line 108 (a record without it would raise
`KeyError` before any of the behaviour under study); `settings` is the
optional `'settings'` sub-object (a missing one is swallowed by
`try/except KeyError`). -/
structure InData where
  payload : List (String × String)
  metadata : List (String × String)
  settings : Option (List (String × String))

/-- Result of `upload_qc_metrics`: either the response of the HTTP POST, or
a locally built `Bunch(status_code=…, text=…)` produced without any network
traffic. -/
inductive UploadResult where
  | response (r : HttpResponse)
  | bunch (status_code : ℕ) (text : String)

/-- `in_data['metadata'].get('modality', 'None')`. -/
def modalityOf (r : InData) : String :=
  (r.metadata.lookup "modality").getD "None"

/-- The flattened POST body: non-metadata items, then the
whitelist-filtered metadata and settings items, then the optional sender
email. -/
def uploadBody (r : InData) (email : Option String) : List (String × String) :=
  r.payload ++ r.metadata.filter (fun kv => META_WHITELIST.contains kv.1) ++
    (r.settings.getD []).filter (fun kv => META_WHITELIST.contains kv.1) ++
    (match email with | some e => [("email", e)] | none => [])

/-- Embedding of `upload_qc_metrics(in_iqms, addr, port, email)`.  The
network boundary (`requests.post`) is the explicit oracle `net`, mapping
the URL and body to either a response or a connection error; the code
never reaches it when the modality check fails. -/
def upload_qc_metrics (r : InData) (addr : String) (port : ℕ) (email : Option String)
    (net : String → List (String × String) → Except String HttpResponse) : UploadResult :=
  let modality := modalityOf r
  if modality ≠ "T1w" ∧ modality ≠ "bold" then
    .bunch 1 ("Submitting to MRIQCWebAPI: image modality should be \"bold\" or \"T1w\", (found \"" ++
      modality ++ "\")")
  else
    match net ("http://" ++ addr ++ ":" ++ toString port ++ "/" ++ modality)
        (uploadBody r email) with
    | .ok resp => .response resp
    | .error err =>
        .bunch 1 ("QC metrics failed to upload due to connection error shown below:\n" ++ err)

/-! ## Helper lemmas -/

theorem imap_length {α β : Type} (f : ℕ → α → β) : ∀ (i : ℕ) (l : List α),
    (imap f i l).length = l.length
  | _, [] => rfl
  | i, _ :: as => by simp [imap, imap_length f (i + 1) as]

theorem map_imap {α β γ : Type} (g : β → γ) (f : ℕ → α → β) : ∀ (i : ℕ) (l : List α),
    (imap f i l).map g = imap (fun j a => g (f j a)) i l
  | _, [] => rfl
  | i, _ :: as => by simp [imap, map_imap g f (i + 1) as]

theorem imap_const {α β : Type} (g : α → β) : ∀ (i : ℕ) (l : List α),
    imap (fun _ a => g a) i l = l.map g
  | _, [] => rfl
  | i, _ :: as => by simp [imap, imap_const g (i + 1) as]

theorem exists_of_mem_imap {α β : Type} {f : ℕ → α → β} :
    ∀ {i : ℕ} {l : List α} {b : β}, b ∈ imap f i l → ∃ j a, b = f j a := by
  intro i l
  induction l generalizing i with
  | nil => intro b hb; simp [imap] at hb
  | cons a as ih =>
    intro b hb
    rw [imap] at hb
    rcases List.mem_cons.mp hb with h | h
    · exact ⟨i, a, h⟩
    · exact ih h

theorem flatten3_forall {P : ℚ → Prop} {m : Vol3}
    (h : ∀ p ∈ m, ∀ r ∈ p, ∀ v ∈ r, P v) : ∀ v ∈ flatten3 m, P v := by
  intro v hv
  rw [flatten3, List.mem_flatten] at hv
  obtain ⟨l, hl, hvl⟩ := hv
  rw [List.mem_map] at hl
  obtain ⟨p, hp, rfl⟩ := hl
  rw [List.mem_flatten] at hvl
  obtain ⟨r, hr, hvr⟩ := hvl
  exact h p hp r hr v hvr

theorem erode3_zero_one (m : Vol3) : ∀ v ∈ flatten3 (erode3 m), v = 0 ∨ v = 1 := by
  apply flatten3_forall
  intro p hp r hr v hv
  rw [erode3] at hp
  obtain ⟨x, plane, rfl⟩ := exists_of_mem_imap hp
  obtain ⟨y, row, rfl⟩ := exists_of_mem_imap hr
  obtain ⟨z, w, rfl⟩ := exists_of_mem_imap hv
  exact Or.symm (ite_eq_or_eq _ 1 0)

theorem dilate3_zero_one (m : Vol3) : ∀ v ∈ flatten3 (dilate3 m), v = 0 ∨ v = 1 := by
  apply flatten3_forall
  intro p hp r hr v hv
  rw [dilate3] at hp
  obtain ⟨x, plane, rfl⟩ := exists_of_mem_imap hp
  obtain ⟨y, row, rfl⟩ := exists_of_mem_imap hr
  obtain ⟨z, w, rfl⟩ := exists_of_mem_imap hv
  exact Or.symm (ite_eq_or_eq _ 1 0)

theorem map3_map3 (f g : ℚ → ℚ) (m : Vol3) :
    map3 f (map3 g m) = map3 (fun v => f (g v)) m := by
  simp [map3, List.map_map, Function.comp]

theorem map3_forall {P : ℚ → Prop} (f : ℚ → ℚ) (m : Vol3) (h : ∀ v, P (f v)) :
    ∀ v ∈ flatten3 (map3 f m), P v := by
  apply flatten3_forall
  intro p hp r hr v hv
  rw [map3, List.mem_map] at hp
  obtain ⟨p0, _, rfl⟩ := hp
  rw [List.mem_map] at hr
  obtain ⟨r0, _, rfl⟩ := hr
  rw [List.mem_map] at hv
  obtain ⟨v0, _, rfl⟩ := hv
  exact h v0

theorem clamp_two_step (v : ℚ) :
    clampStep2 (clampStep1 v) = if 0.95 < v then 1 else 0 := by
  rw [clampStep1, clampStep2]
  by_cases h : (0.95 : ℚ) < v
  · rw [if_pos h, if_pos h, if_neg (by norm_num)]
  · rw [if_neg h, if_pos (by push_neg at h; linarith [h]), if_neg h]

theorem label_two_step (label : ℤ) (v : ℚ) :
    labelStep2 label (labelStep1 label v) =
      if v = (label : ℚ) then 1 else if (0 : ℚ) = (label : ℚ) then 1 else 0 := by
  rw [labelStep1, labelStep2]
  by_cases h : v = (label : ℚ)
  · rw [if_neg (not_not_intro h), if_pos h, if_pos h]
  · rw [if_pos h, if_neg h]

theorem prepare_mask_zero_one (mask : Vol3) (isInt : Bool) (label : ℤ) (erode : Bool) :
    ∀ v ∈ flatten3 (prepare_mask mask isInt label erode), v = 0 ∨ v = 1 := by
  rw [prepare_mask]
  cases erode with
  | true =>
    simp only [if_true, opening3]
    cases isInt <;> exact dilate3_zero_one _
  | false =>
    simp only [Bool.false_eq_true, if_false]
    cases isInt with
    | true =>
      simp only [if_true, map3_map3]
      apply map3_forall
      intro v
      rw [label_two_step]
      split
      · right; rfl
      · split
        · right; rfl
        · left; rfl
    | false =>
      simp only [Bool.false_eq_true, if_false, map3_map3]
      apply map3_forall
      intro v
      rw [clamp_two_step]
      split
      · right; rfl
      · left; rfl

theorem shape3_map3 (f : ℚ → ℚ) (m : Vol3) : shape3 (map3 f m) = shape3 m := by
  simp [shape3, map3, List.map_map, Function.comp]

theorem shape3_erode3 (m : Vol3) : shape3 (erode3 m) = shape3 m := by
  simp [shape3, erode3, map_imap, imap_length, imap_const]

theorem shape3_dilate3 (m : Vol3) : shape3 (dilate3 m) = shape3 m := by
  simp [shape3, dilate3, map_imap, imap_length, imap_const]

theorem shape3_prepare_mask (mask : Vol3) (isInt : Bool) (label : ℤ) (erode : Bool) :
    shape3 (prepare_mask mask isInt label erode) = shape3 mask := by
  rw [prepare_mask]
  cases erode <;> cases isInt <;>
    simp [opening3, shape3_dilate3, shape3_erode3, shape3_map3]

theorem flatten3_length (m : Vol3) :
    (flatten3 m).length = ((shape3 m).map List.sum).sum := by
  rw [flatten3, List.length_flatten, shape3, List.map_map, List.map_map]
  congr 1
  apply List.map_congr_left
  intro p _
  simp [Function.comp, List.length_flatten]

theorem selectP_cons {α : Type} (a : ℚ) (as : List ℚ) (b : α) (bs : List α)
    (p : α → Bool) :
    selectP (a :: as) (b :: bs) p =
      if p b then a :: selectP as bs p else selectP as bs p := by
  simp only [selectP, List.zip_cons_cons, List.filter_cons]
  split <;> simp

theorem selectP_length_filter {α : Type} (p : α → Bool) :
    ∀ (img : List ℚ) (mask : List α), img.length = mask.length →
    (selectP img mask p).length = (mask.filter p).length := by
  intro img
  induction img with
  | nil =>
    intro mask h
    cases mask with
    | nil => rfl
    | cons b bs => simp at h
  | cons a as ih =>
    intro mask h
    cases mask with
    | nil => simp at h
    | cons b bs =>
      rw [selectP_cons, List.filter_cons]
      by_cases hb : p b
      · rw [if_pos hb, if_pos hb]
        simp [ih bs (by simpa using h)]
      · rw [if_neg hb, if_neg hb]
        exact ih bs (by simpa using h)

theorem sum_zero_one_eq_count (l : List ℚ) (h : ∀ v ∈ l, v = 0 ∨ v = 1) :
    l.sum = ((l.filter (fun v => decide ((0:ℚ) < v))).length : ℚ) := by
  induction l with
  | nil => simp
  | cons a as ih =>
    have ha := h a (List.mem_cons_self a as)
    have has : ∀ v ∈ as, v = 0 ∨ v = 1 := fun v hv => h v (List.mem_cons_of_mem a hv)
    rcases ha with h0 | h1
    · subst h0
      rw [List.sum_cons, List.filter_cons, if_neg (by norm_num)]
      rw [ih has]
      ring
    · subst h1
      rw [List.sum_cons, List.filter_cons, if_pos (by norm_num)]
      rw [List.length_cons, ih has]
      push_cast
      ring

/-! ## Theorems for C7 (_prepare_mask continuous threshold) -/

/-- C7 (counterexample): a probability mask whose single voxel is exactly
0.95 satisfies the claim's premise (value ≥ 0.95) but is mapped to
BACKGROUND: the first write `fgmask[fgmask > .95] = 1` leaves 0.95
untouched, the second write `fgmask[fgmask < 1.] = 0` zeroes it. -/
theorem C7_prepare_mask_boundary_counterexample :
    (0.95 : ℚ) ≥ 0.95 ∧
    prepare_mask [[[0.95]]] false 1 false = [[[0]]] ∧
    prepare_mask [[[0.95]]] false 1 false ≠ [[[1]]] := by
  refine ⟨le_refl _, ?_, ?_⟩ <;>
    norm_num [prepare_mask, map3, clampStep1, clampStep2]

/-- C7 (amended): on a continuous probability mask (without erosion) the
prepared mask is the element-wise STRICT threshold: a voxel maps to
foreground (1) exactly when its value exceeds 0.95, and to background (0)
when its value is at most 0.95 — in particular a voxel at exactly 0.95
ends as background. -/
theorem C7_prepare_mask_strict_threshold (mask : Vol3) (label : ℤ) :
    prepare_mask mask false label false =
      map3 (fun v => if 0.95 < v then 1 else 0) mask := by
  rw [prepare_mask]
  simp only [Bool.false_eq_true, if_false, map3_map3, clamp_two_step]

/-! ## Theorems for C1 (snr) -/

/-- C1 (counterexample): at this volume and mask the prepared foreground
selection is [1, 1, 4]; `snr` divides the median 1 by
√((0²+0²+3²)/2) = √(9/2) — squared deviations about the MEDIAN — while the
claim's Bessel-corrected standard deviation about the mean gives
√((1+1+4)/2) = √3, so `snr` differs from median/std at this input. -/
theorem C1_snr_counterexample :
    snr [[[1, 1, 4]]] [[[1, 1, 1]]] true false 1 ≠
      (median (selectP (flatten3 [[[1, 1, 4]]])
        (flatten3 (prepare_mask [[[1, 1, 1]]] true 1 false)) (fun v => 0 < v)) : ℝ) /
      besselStd (selectP (flatten3 [[[1, 1, 4]]])
        (flatten3 (prepare_mask [[[1, 1, 1]]] true 1 false)) (fun v => 0 < v)) := by
  have hmask : prepare_mask [[[1, 1, 1]]] true 1 false = [[[1, 1, 1]]] := by
    norm_num [prepare_mask, map3, labelStep1, labelStep2]
  have hsel : selectP (flatten3 [[[(1:ℚ), 1, 4]]]) (flatten3 [[[(1:ℚ), 1, 1]]])
      (fun v => 0 < v) = [1, 1, 4] := by
    norm_num [selectP, flatten3, List.filter, List.zip, List.zipWith]
  have hmed : median [(1:ℚ), 1, 4] = 1 := by
    norm_num [median, sortQ, insertSorted]
  have hlhs : snr [[[1, 1, 4]]] [[[1, 1, 1]]] true false 1 =
      1 / Real.sqrt ((9/2 : ℝ)) := by
    rw [snr]
    rw [hmask, hsel, hmed]
    norm_num [flatten3]
  have hrhs : (median (selectP (flatten3 [[[(1:ℚ), 1, 4]]])
        (flatten3 (prepare_mask [[[1, 1, 1]]] true 1 false)) (fun v => 0 < v)) : ℝ) /
      besselStd (selectP (flatten3 [[[(1:ℚ), 1, 4]]])
        (flatten3 (prepare_mask [[[1, 1, 1]]] true 1 false)) (fun v => 0 < v)) =
      1 / Real.sqrt ((3 : ℝ)) := by
    rw [hmask, hsel, hmed, besselStd]
    norm_num [meanQ]
  rw [hlhs, hrhs]
  have hlt : Real.sqrt (3 : ℝ) < Real.sqrt (9/2 : ℝ) :=
    Real.sqrt_lt_sqrt (by norm_num) (by norm_num)
  have hpos : 0 < Real.sqrt (3 : ℝ) := Real.sqrt_pos.mpr (by norm_num)
  exact ne_of_lt (one_div_lt_one_div_of_lt hpos hlt)

/-- C1 (amended): for every volume and tissue mask whose prepared
foreground selection has at least 2 voxels (arrays sharing one grid),
`snr` returns the median of the intensities over the prepared foreground
selection divided by the (n−1)-normalized square-root spread of those same
intensities about their MEDIAN (not the standard deviation about the
mean) — numerator and denominator both over the identical prepared
foreground mask, the background mask being assigned from the foreground
mask. -/
theorem C1_snr_median_over_median_spread (img smask : Vol3) (isInt : Bool)
    (erode : Bool) (fglabel : ℤ)
    (hshape : shape3 img = shape3 smask)
    (_hvox : 2 ≤ (selectP (flatten3 img)
      (flatten3 (prepare_mask smask isInt fglabel erode)) (fun v => 0 < v)).length) :
    snr img smask isInt erode fglabel =
      (median (selectP (flatten3 img)
        (flatten3 (prepare_mask smask isInt fglabel erode)) (fun v => 0 < v)) : ℝ) /
      besselMedianSpread (selectP (flatten3 img)
        (flatten3 (prepare_mask smask isInt fglabel erode)) (fun v => 0 < v)) := by
  have hz := prepare_mask_zero_one smask isInt fglabel erode
  have hlen : (flatten3 img).length =
      (flatten3 (prepare_mask smask isInt fglabel erode)).length := by
    rw [flatten3_length, flatten3_length, hshape, shape3_prepare_mask]
  have hsum : (flatten3 (prepare_mask smask isInt fglabel erode)).sum =
      (((flatten3 (prepare_mask smask isInt fglabel erode)).filter
        (fun v => decide ((0:ℚ) < v))).length : ℚ) :=
    sum_zero_one_eq_count _ hz
  have hsel : (selectP (flatten3 img) (flatten3 (prepare_mask smask isInt fglabel erode))
      (fun v => decide ((0:ℚ) < v))).length =
      ((flatten3 (prepare_mask smask isInt fglabel erode)).filter
        (fun v => decide ((0:ℚ) < v))).length :=
    selectP_length_filter _ _ _ hlen
  rw [snr, besselMedianSpread, hsum, ← hsel]

/-- Witness for C1 at the volume and mask of the counterexample (three
selected voxels). -/
theorem C1_snr_witness :
    snr [[[1, 1, 4]]] [[[1, 1, 1]]] true false 1 =
      (median (selectP (flatten3 [[[1, 1, 4]]])
        (flatten3 (prepare_mask [[[1, 1, 1]]] true 1 false)) (fun v => 0 < v)) : ℝ) /
      besselMedianSpread (selectP (flatten3 [[[1, 1, 4]]])
        (flatten3 (prepare_mask [[[1, 1, 1]]] true 1 false)) (fun v => 0 < v)) :=
  C1_snr_median_over_median_spread [[[1, 1, 4]]] [[[1, 1, 1]]] true false 1
    (by norm_num [shape3])
    (by norm_num [selectP, flatten3, prepare_mask, map3, labelStep1, labelStep2,
      List.filter, List.zip, List.zipWith])

/-! ## Theorems for C6 (snr_dietrich) -/

/-- C6: `snr_dietrich` returns −1.0 when the Rayleigh-corrected noise scale
MAD(air) × √(2/(4−π)) is below 1e-3, and otherwise returns the foreground
median divided by that corrected noise scale. -/
theorem C6_snr_dietrich_sentinel_or_quotient (img smask airmask : Vol3)
    (smaskInt airmaskInt : Bool) (erode : Bool) (fglabel : ℤ) :
    ((mad (selectP (flatten3 img)
        (flatten3 (prepare_mask airmask airmaskInt 1 erode)) (fun v => 0 < v)) : ℝ) *
        Real.sqrt (2 / (4 - Real.pi)) < 1e-3 →
      snr_dietrich img smask airmask smaskInt airmaskInt erode fglabel = -1) ∧
    (¬ ((mad (selectP (flatten3 img)
        (flatten3 (prepare_mask airmask airmaskInt 1 erode)) (fun v => 0 < v)) : ℝ) *
        Real.sqrt (2 / (4 - Real.pi)) < 1e-3) →
      snr_dietrich img smask airmask smaskInt airmaskInt erode fglabel =
        (median (selectP (flatten3 img)
          (flatten3 (prepare_mask smask smaskInt fglabel erode)) (fun v => 0 < v)) : ℝ) /
        ((mad (selectP (flatten3 img)
          (flatten3 (prepare_mask airmask airmaskInt 1 erode)) (fun v => 0 < v)) : ℝ) *
          Real.sqrt (2 / (4 - Real.pi)))) := by
  constructor
  · intro h
    rw [snr_dietrich, if_pos h]
  · intro h
    rw [snr_dietrich, if_neg h]

/-- The Rayleigh correction factor exceeds 1 (π > 3 makes 2/(4−π) > 2). -/
theorem rayleigh_factor_gt_one : (1 : ℝ) < Real.sqrt (2 / (4 - Real.pi)) := by
  rw [show (1:ℝ) = Real.sqrt 1 by simp]
  apply Real.sqrt_lt_sqrt (by norm_num)
  rw [lt_div_iff₀ (by nlinarith [Real.pi_lt_d2])]
  nlinarith [Real.pi_gt_three]

/-- Witness for C6: an all-zero air sample gives scale 0 < 1e-3 and the
sentinel; an air sample [0, 1, 2] has MAD 1/madC, so its corrected scale
is above 1e-3 and the quotient is returned. -/
theorem C6_snr_dietrich_witness :
    snr_dietrich [[[0, 0, 0]]] [[[1, 1, 1]]] [[[1, 1, 1]]] true true false 1 = -1 ∧
    snr_dietrich [[[0, 1, 2]]] [[[1, 1, 1]]] [[[1, 1, 1]]] true true false 1 =
      (median (selectP (flatten3 [[[0, 1, 2]]])
        (flatten3 (prepare_mask [[[1, 1, 1]]] true 1 false)) (fun v => 0 < v)) : ℝ) /
      ((mad (selectP (flatten3 [[[0, 1, 2]]])
        (flatten3 (prepare_mask [[[1, 1, 1]]] true 1 false)) (fun v => 0 < v)) : ℝ) *
        Real.sqrt (2 / (4 - Real.pi))) := by
  have hmask : prepare_mask [[[1, 1, 1]]] true 1 false = [[[1, 1, 1]]] := by
    norm_num [prepare_mask, map3, labelStep1, labelStep2]
  constructor
  · apply (C6_snr_dietrich_sentinel_or_quotient
      [[[0, 0, 0]]] [[[1, 1, 1]]] [[[1, 1, 1]]] true true false 1).1
    have hmad : mad (selectP (flatten3 [[[(0:ℚ), 0, 0]]])
        (flatten3 (prepare_mask [[[1, 1, 1]]] true 1 false)) (fun v => 0 < v)) = 0 := by
      rw [hmask]
      norm_num [mad, median, sortQ, insertSorted, selectP, flatten3,
        List.filter, List.zip, List.zipWith, madC]
    rw [hmad]
    norm_num
  · apply (C6_snr_dietrich_sentinel_or_quotient
      [[[0, 1, 2]]] [[[1, 1, 1]]] [[[1, 1, 1]]] true true false 1).2
    have hmad : mad (selectP (flatten3 [[[(0:ℚ), 1, 2]]])
        (flatten3 (prepare_mask [[[1, 1, 1]]] true 1 false)) (fun v => 0 < v)) =
        1 / madC := by
      rw [hmask]
      norm_num [mad, median, sortQ, insertSorted, selectP, flatten3,
        List.filter, List.zip, List.zipWith, madC, abs_neg, abs_one, abs_zero]
    rw [hmad]
    push_neg
    have hc : (1 : ℝ) < ((1 / madC : ℚ) : ℝ) := by
      norm_num [madC]
    nlinarith [rayleigh_factor_gt_one, hc]

/-! ## Theorems for C5 (art_qi2 short-circuit) -/

theorem mem_touch (fs : List String) (p : String) : p ∈ touch fs p := by
  by_cases h : p ∈ fs
  · simp [touch, h]
  · simp [touch, h]

/-- C5: whenever the (optionally eroded) air region selects fewer than
`min_voxels` strictly positive intensities, `art_qi2` returns the pair
(0.0, out_file) — for every fitting oracle — and the diagnostic file
exists at that path in the resulting file system (it was touched before
the short-circuit). -/
theorem C5_art_qi2_short_circuit (img airmask : Vol3) (erodemask : Bool)
    (out_file : String) (min_voxels : ℚ) (fit : List ℚ → ℚ) (fs : List String)
    (h : (((((selectP (flatten3 img)
        (flatten3 (if erodemask then erode3 airmask else airmask))
        (fun v => 0 < v)).filter (fun v => 0 < v)).length : ℚ)) < min_voxels)) :
    (art_qi2 img airmask erodemask out_file min_voxels fit fs).1 = (0, out_file) ∧
    out_file ∈ (art_qi2 img airmask erodemask out_file min_voxels fit fs).2 := by
  rw [art_qi2, if_pos h]
  exact ⟨rfl, mem_touch fs out_file⟩

/-- Witness for C5: a single-voxel air mask is emptied by the erosion, so
zero positive samples remain, below the default threshold of 1000. -/
theorem C5_art_qi2_witness :
    (art_qi2 [[[1]]] [[[1]]] true "qi2_fitting.txt" 1000 (fun _ => 0) []).1 =
      (0, "qi2_fitting.txt") ∧
    "qi2_fitting.txt" ∈
      (art_qi2 [[[1]]] [[[1]]] true "qi2_fitting.txt" 1000 (fun _ => 0) []).2 :=
  C5_art_qi2_short_circuit [[[1]]] [[[1]]] true "qi2_fitting.txt" 1000 (fun _ => 0) []
    (by
      have he : erode3 [[[(1:ℚ)]]] = [[[0]]] := by decide
      simp only [if_true, he]
      norm_num [selectP, flatten3, List.filter, List.zip, List.zipWith])

/-! ## Theorems for C4 (volume_fraction) -/

/-- C4: for every list of three tissue PVM arrays with values in [0,1] and a
strictly positive total voxel sum, the three fractions returned by
`volume_fraction` are each in [0,1] and sum exactly to 1 (exact rational
arithmetic). -/
theorem C4_volume_fraction_unit_interval_sum_one (p1 p2 p3 : List ℚ)
    (h1 : ∀ x ∈ p1, 0 ≤ x ∧ x ≤ 1) (h2 : ∀ x ∈ p2, 0 ≤ x ∧ x ≤ 1)
    (h3 : ∀ x ∈ p3, 0 ≤ x ∧ x ≤ 1)
    (htot : 0 < p1.sum + p2.sum + p3.sum) :
    (0 ≤ (volume_fraction [p1, p2, p3]).csf ∧ (volume_fraction [p1, p2, p3]).csf ≤ 1) ∧
    (0 ≤ (volume_fraction [p1, p2, p3]).gm ∧ (volume_fraction [p1, p2, p3]).gm ≤ 1) ∧
    (0 ≤ (volume_fraction [p1, p2, p3]).wm ∧ (volume_fraction [p1, p2, p3]).wm ≤ 1) ∧
    (volume_fraction [p1, p2, p3]).csf + (volume_fraction [p1, p2, p3]).gm +
      (volume_fraction [p1, p2, p3]).wm = 1 := by
  have s1 : 0 ≤ p1.sum := List.sum_nonneg (fun x hx => (h1 x hx).1)
  have s2 : 0 ≤ p2.sum := List.sum_nonneg (fun x hx => (h2 x hx).1)
  have s3 : 0 ≤ p3.sum := List.sum_nonneg (fun x hx => (h3 x hx).1)
  simp only [volume_fraction, List.getD_cons_zero, List.getD_cons_succ]
  refine ⟨⟨?_, ?_⟩, ⟨?_, ?_⟩, ⟨?_, ?_⟩, ?_⟩
  · exact div_nonneg s1 htot.le
  · exact (div_le_one htot).mpr (by linarith)
  · exact div_nonneg s2 htot.le
  · exact (div_le_one htot).mpr (by linarith)
  · exact div_nonneg s3 htot.le
  · exact (div_le_one htot).mpr (by linarith)
  · rw [div_add_div_same, div_add_div_same]
    exact div_self htot.ne'

/-- Witness for C4 at concrete partial-volume maps. -/
theorem C4_volume_fraction_witness :
    (volume_fraction [[(1:ℚ)/2], [1/4], [1/4]]).csf +
      (volume_fraction [[(1:ℚ)/2], [1/4], [1/4]]).gm +
      (volume_fraction [[(1:ℚ)/2], [1/4], [1/4]]).wm = 1 :=
  (C4_volume_fraction_unit_interval_sum_one [(1:ℚ)/2] [1/4] [1/4]
    (by rintro x hx; simp only [List.mem_singleton] at hx; subst hx; norm_num)
    (by rintro x hx; simp only [List.mem_singleton] at hx; subst hx; norm_num)
    (by rintro x hx; simp only [List.mem_singleton] at hx; subst hx; norm_num)
    (by norm_num)).2.2.2

/-! ## Theorems for C2 (cnr) -/

/-- C2 (counterexample): at this volume and segmentation the background MAD
is below 1.0, yet `cnr` does NOT equal |median(GM) − median(WM)| divided by
the average (sum over 3) of the three tissue MADs, refuting the claim as
stated. -/
theorem C2_cnr_counterexample :
    mad (selSeg [5, 5, 5, 0, 1, 2, 10, 11, 12, 0, 1, 2]
      [0, 0, 0, 2, 2, 2, 3, 3, 3, 1, 1, 1] lbl_bg) < 1 ∧
    cnr [5, 5, 5, 0, 1, 2, 10, 11, 12, 0, 1, 2]
      [0, 0, 0, 2, 2, 2, 3, 3, 3, 1, 1, 1] ≠
      |median (selSeg [5, 5, 5, 0, 1, 2, 10, 11, 12, 0, 1, 2]
          [0, 0, 0, 2, 2, 2, 3, 3, 3, 1, 1, 1] lbl_gm) -
        median (selSeg [5, 5, 5, 0, 1, 2, 10, 11, 12, 0, 1, 2]
          [0, 0, 0, 2, 2, 2, 3, 3, 3, 1, 1, 1] lbl_wm)| /
        ((mad (selSeg [5, 5, 5, 0, 1, 2, 10, 11, 12, 0, 1, 2]
            [0, 0, 0, 2, 2, 2, 3, 3, 3, 1, 1, 1] lbl_gm) +
          mad (selSeg [5, 5, 5, 0, 1, 2, 10, 11, 12, 0, 1, 2]
            [0, 0, 0, 2, 2, 2, 3, 3, 3, 1, 1, 1] lbl_wm) +
          mad (selSeg [5, 5, 5, 0, 1, 2, 10, 11, 12, 0, 1, 2]
            [0, 0, 0, 2, 2, 2, 3, 3, 3, 1, 1, 1] lbl_csf)) / 3) := by
  constructor <;>
    norm_num [cnr, mad, median, sortQ, insertSorted, selSeg, selectP, madC,
      lbl_bg, lbl_gm, lbl_wm, lbl_csf, List.filter, List.zip, List.zipWith]

/-- C2 (amended): when the MAD of the background-labelled intensities is
below 1.0, `cnr` uses as its noise denominator the SUM
MAD(GM) + MAD(WM) + MAD(CSF) (the code's `np.average` receives a scalar
and returns it unchanged, so no division by 3 happens) and returns
|median(GM) − median(WM)| divided by that sum. -/
theorem C2_cnr_fallback_is_sum_of_mads (img : List ℚ) (seg : List ℤ)
    (h : mad (selSeg img seg lbl_bg) < 1) :
    cnr img seg =
      |median (selSeg img seg lbl_gm) - median (selSeg img seg lbl_wm)| /
        (mad (selSeg img seg lbl_gm) + mad (selSeg img seg lbl_wm) +
          mad (selSeg img seg lbl_csf)) := by
  simp only [cnr]
  rw [if_pos h]

/-- Witness for C2 at the concrete input of the counterexample. -/
theorem C2_cnr_fallback_witness :
    cnr [5, 5, 5, 0, 1, 2, 10, 11, 12, 0, 1, 2]
      [0, 0, 0, 2, 2, 2, 3, 3, 3, 1, 1, 1] =
      |median (selSeg [5, 5, 5, 0, 1, 2, 10, 11, 12, 0, 1, 2]
          [0, 0, 0, 2, 2, 2, 3, 3, 3, 1, 1, 1] lbl_gm) -
        median (selSeg [5, 5, 5, 0, 1, 2, 10, 11, 12, 0, 1, 2]
          [0, 0, 0, 2, 2, 2, 3, 3, 3, 1, 1, 1] lbl_wm)| /
        (mad (selSeg [5, 5, 5, 0, 1, 2, 10, 11, 12, 0, 1, 2]
            [0, 0, 0, 2, 2, 2, 3, 3, 3, 1, 1, 1] lbl_gm) +
          mad (selSeg [5, 5, 5, 0, 1, 2, 10, 11, 12, 0, 1, 2]
            [0, 0, 0, 2, 2, 2, 3, 3, 3, 1, 1, 1] lbl_wm) +
          mad (selSeg [5, 5, 5, 0, 1, 2, 10, 11, 12, 0, 1, 2]
            [0, 0, 0, 2, 2, 2, 3, 3, 3, 1, 1, 1] lbl_csf)) :=
  C2_cnr_fallback_is_sum_of_mads _ _
    (by norm_num [mad, median, sortQ, insertSorted, selSeg, selectP, madC,
      lbl_bg, List.filter, List.zip, List.zipWith])

/-! ## Theorems for C8 (cjv) -/

/-- C8: `cjv` raises its configuration error exactly when no segmentation
is supplied and at least one of the explicit WM/GM masks is missing; with
a segmentation it computes (MAD(WM)+MAD(GM)) / (median(WM) − median(GM))
over the masks rebuilt from the segmentation labels, and with both
explicit masks it computes the same formula over those masks. -/
theorem C8_cjv_error_iff_no_seg_and_missing_mask (img : List ℚ)
    (seg : Option (List ℤ)) (wmmask gmmask : Option (List ℚ)) (wmlabel gmlabel : ℤ) :
    ((∃ e, cjv img seg wmmask gmmask wmlabel gmlabel = .error e) ↔
      (seg = none ∧ (wmmask = none ∨ gmmask = none))) ∧
    (∀ s, seg = some s →
      cjv img seg wmmask gmmask wmlabel gmlabel =
        .ok ((mad (selectP img (maskFromSeg s wmlabel) (fun v => (1:ℚ)/2 < v)) +
              mad (selectP img (maskFromSeg s gmlabel) (fun v => (1:ℚ)/2 < v))) /
             (median (selectP img (maskFromSeg s wmlabel) (fun v => (1:ℚ)/2 < v)) -
              median (selectP img (maskFromSeg s gmlabel) (fun v => (1:ℚ)/2 < v))))) ∧
    (∀ w g, seg = none → wmmask = some w → gmmask = some g →
      cjv img seg wmmask gmmask wmlabel gmlabel =
        .ok ((mad (selectP img w (fun v => (1:ℚ)/2 < v)) +
              mad (selectP img g (fun v => (1:ℚ)/2 < v))) /
             (median (selectP img w (fun v => (1:ℚ)/2 < v)) -
              median (selectP img g (fun v => (1:ℚ)/2 < v))))) := by
  refine ⟨?_, ?_, ?_⟩
  · constructor
    · rintro ⟨e, he⟩
      by_contra hc
      rw [cjv.eq_def, if_neg hc] at he
      rcases seg with _ | s
      · simp at he
      · simp at he
    · rintro ⟨hs, hm⟩
      subst hs
      exact ⟨_, by rw [cjv.eq_def, if_pos ⟨rfl, hm⟩]⟩
  · rintro s rfl
    rw [cjv.eq_def, if_neg (by simp)]
    simp only [cjvValue]
  · rintro w g hs hw hg
    subst hs; subst hw; subst hg
    rw [cjv.eq_def, if_neg (by simp)]
    simp only [cjvValue, Option.getD_some]

/-- Witness for C8: a segmentation is supplied, so `cjv` computes the
formula (here at a concrete volume and segmentation). -/
theorem C8_cjv_witness :
    cjv [10, 12, 4, 6] (some [3, 3, 2, 2]) none none 3 2 =
      .ok ((mad (selectP [10, 12, 4, 6] (maskFromSeg [3, 3, 2, 2] 3) (fun v => (1:ℚ)/2 < v)) +
            mad (selectP [10, 12, 4, 6] (maskFromSeg [3, 3, 2, 2] 2) (fun v => (1:ℚ)/2 < v))) /
           (median (selectP [10, 12, 4, 6] (maskFromSeg [3, 3, 2, 2] 3) (fun v => (1:ℚ)/2 < v)) -
            median (selectP [10, 12, 4, 6] (maskFromSeg [3, 3, 2, 2] 2) (fun v => (1:ℚ)/2 < v)))) :=
  (C8_cjv_error_iff_no_seg_and_missing_mask [10, 12, 4, 6] (some [3, 3, 2, 2])
    none none 3 2).2.1 [3, 3, 2, 2] rfl

/-! ## Theorems for C9 (upload modality gate) -/

/-- C9: whenever `metadata.modality` is neither exactly `"T1w"` nor exactly
`"bold"` (in particular when the key is absent, in which case it reads
`"None"`), `upload_qc_metrics` returns, for EVERY network oracle, the same
locally built error result `Bunch(status_code=1, …)` — so no HTTP POST is
issued and no exception propagates. -/
theorem C9_upload_invalid_modality_local_error (r : InData) (addr : String)
    (port : ℕ) (email : Option String)
    (h1 : modalityOf r ≠ "T1w") (h2 : modalityOf r ≠ "bold") :
    ∀ net, upload_qc_metrics r addr port email net =
      .bunch 1 ("Submitting to MRIQCWebAPI: image modality should be \"bold\" or \"T1w\", (found \"" ++
        modalityOf r ++ "\")") := by
  intro net
  rw [upload_qc_metrics, if_pos ⟨h1, h2⟩]

/-- Witness for C9: a record with modality `"T2w"` and one with the key
absent, under an oracle that would answer 201 if it were ever consulted. -/
theorem C9_upload_invalid_modality_witness :
    upload_qc_metrics ⟨[], [("modality", "T2w")], none⟩ "addr" 80 none
        (fun _ _ => .ok ⟨201, "created"⟩) =
      .bunch 1 ("Submitting to MRIQCWebAPI: image modality should be \"bold\" or \"T1w\", (found \"" ++
        modalityOf ⟨[], [("modality", "T2w")], none⟩ ++ "\")") ∧
    upload_qc_metrics ⟨[], [("subject_id", "01")], none⟩ "addr" 80 none
        (fun _ _ => .ok ⟨201, "created"⟩) =
      .bunch 1 ("Submitting to MRIQCWebAPI: image modality should be \"bold\" or \"T1w\", (found \"" ++
        modalityOf ⟨[], [("subject_id", "01")], none⟩ ++ "\")") :=
  ⟨C9_upload_invalid_modality_local_error ⟨[], [("modality", "T2w")], none⟩ "addr" 80 none
      (by decide) (by decide) (fun _ _ => .ok ⟨201, "created"⟩),
   C9_upload_invalid_modality_local_error ⟨[], [("subject_id", "01")], none⟩ "addr" 80 none
      (by decide) (by decide) (fun _ _ => .ok ⟨201, "created"⟩)⟩

/-! ## Theorems for C3 (summary_stats stack shapes) -/

/-- C3 (counterexample): on matching data, the 4-element PVM stack call
does NOT return the per-tissue statistics of the 3-element call — it
raises (in the source, `labels` is referenced unassigned because the list
grows to 5 entries), while the 3-element call succeeds. -/
theorem C3_summary_stats_counterexample :
    summary_stats [0, 1, 2, 3]
      (.stack [[1, 0, 0, 1], [1, 0, 0, 0], [0, 1, 0, 0], [0, 0, 1, 0]]) none =
      .error "UnboundLocalError: local variable labels referenced before assignment" ∧
    (summary_stats [0, 1, 2, 3]
      (.stack [[1, 0, 0, 0], [0, 1, 0, 0], [0, 0, 1, 0]]) none).isOk = true := by
  constructor
  · rfl
  · rfl

/-- C3 (amended): `summary_stats` does not accept a 4-element PVM stack at
all: every such call ends in the unhandled `labels`-unassigned error,
whether or not explicit background data is supplied; only the 3-element
stack (CSF+GM+WM, background taken as the element-wise sum of the three,
or as `bgdata`) returns per-tissue statistics. -/
theorem C3_summary_stats_four_vs_three (img : List ℚ) (ls : List (List ℚ))
    (bgdata : Option (List ℚ)) :
    (ls.length = 4 →
      summary_stats img (.stack ls) bgdata =
        .error "UnboundLocalError: local variable labels referenced before assignment") ∧
    (ls.length = 3 →
      ∃ r, summary_stats img (.stack ls) bgdata = .ok r) := by
  constructor
  · intro h
    simp only [summary_stats]
    rw [if_neg (by omega), if_neg (by omega)]
    cases bgdata with
    | none => rw [if_neg (by simp [h])]
    | some b => rw [if_neg (by simp [h])]
  · intro h
    simp only [summary_stats]
    rw [if_neg (by omega), if_neg (by omega)]
    cases bgdata with
    | none => rw [if_pos (by simp [h])]; exact ⟨_, rfl⟩
    | some b => rw [if_pos (by simp [h])]; exact ⟨_, rfl⟩

/-- Witness for C3 at the concrete stacks of the counterexample. -/
theorem C3_summary_stats_witness :
    summary_stats [0, 1, 2, 3]
      (.stack [[(1:ℚ), 0, 0, 1], [1, 0, 0, 0], [0, 1, 0, 0], [0, 0, 1, 0]]) none =
      .error "UnboundLocalError: local variable labels referenced before assignment" ∧
    ∃ r, summary_stats [0, 1, 2, 3]
      (.stack [[(1:ℚ), 0, 0, 0], [0, 1, 0, 0], [0, 0, 1, 0]]) none = .ok r :=
  ⟨(C3_summary_stats_four_vs_three [0, 1, 2, 3]
      [[(1:ℚ), 0, 0, 1], [1, 0, 0, 0], [0, 1, 0, 0], [0, 0, 1, 0]] none).1 rfl,
   (C3_summary_stats_four_vs_three [0, 1, 2, 3]
      [[(1:ℚ), 0, 0, 0], [0, 1, 0, 0], [0, 0, 1, 0]] none).2 rfl⟩

/-! ## Theorems for C10 (rpve leaves its inputs unchanged) -/

/-- C10: the state-threaded rendering of `rpve` returns the caller's PVM
list and segmentation exactly as they entered (each iteration's clipping
and trimming writes act on the fresh copy produced by NumPy boolean
indexing), and its per-tissue values are the trimmed sums `rpve`
computes. -/
theorem C10_rpve_store_unchanged (pvms : List (List ℚ)) (seg : List ℤ) :
    (rpveRun pvms seg).2.1 = pvms ∧ (rpveRun pvms seg).2.2 = seg ∧
    (rpveRun pvms seg).1 = rpve pvms seg := by
  refine ⟨rfl, rfl, ?_⟩
  rfl

end MRIQC
